import Mathlib

/-!
Shallow embedding of the yolink-exporter core: the metrics cache/collector
in exporter.go and the device API client in yolink_client.go.

Modelling conventions:
- Instants and durations are Int nanoseconds, as in the Go time package
  (time.Duration is an int64 count of nanoseconds, time.Second = 1e9).
- The upstream HTTP world is passed in as explicit oracles: the outcome of
  the device-list call, a per-device state-fetch outcome function, the
  outcome of a token HTTP exchange, and the RFC3339 parser from the Go
  standard library (a function String to Option Int of Unix seconds).
- The Go map deviceStates is modelled as a lookup function
  String to Option DeviceStateResponse; the Go code only ever builds it
  fresh by keyed insertion and reads it by key, never iterates it, so the
  lookup function is an exact model of its observable behaviour.
- float64 telemetry values (temperature, humidity) are carried as Rat: the
  code copies them into metric samples unchanged and performs no floating
  point arithmetic on them, so any exact carrier is faithful; int-valued
  samples (battery, timestamps, 0/1 gauges) are embedded via Int.cast.
- Metric emission on the channel is modelled as the list of samples sent,
  in order; each upstream request made during a refresh is recorded in a
  trace list.
-/

/-- Device record, from yolink_client.go. -/
structure Device where
  deviceID : String
  deviceUDID : String
  name : String
  token : String
  type : String
  parentDeviceID : String
  modelName : String
  serviceZone : String
deriving DecidableEq, Repr

/-- Inner sensor reading of DeviceStateResponse.Data.State. -/
structure SensorReading where
  battery : Int
  humidity : Rat
  temperature : Rat
  state : String
deriving DecidableEq, Repr

/-- DeviceStateResponse.Data, from yolink_client.go. -/
structure DeviceStateData where
  online : Bool
  state : SensorReading
  deviceID : String
  reportAt : String
deriving DecidableEq, Repr

/-- Full device-state response body, from yolink_client.go. -/
structure DeviceStateResponse where
  code : String
  time : Int
  data : DeviceStateData
deriving DecidableEq, Repr

/-- Device-list response body, from yolink_client.go. -/
structure DeviceListResponse where
  code : String
  time : Int
  devices : List Device
deriving DecidableEq, Repr

/-- Token-endpoint response body, from yolink_client.go. -/
structure TokenResponse where
  accessToken : String
  tokenType : String
  expiresIn : Int
  refreshToken : String
  scope : List String
deriving DecidableEq, Repr

/-- The metric families registered by NewYoLinkExporter in exporter.go. -/
inductive MetricKind
  | temperature
  | humidity
  | battery
  | online
  | lastUpdated
  | up
deriving DecidableEq, Repr

/-- One sample sent on the collection channel: family, gauge value, label
values (device id, device name, model, in that order; empty for up). -/
structure Metric where
  kind : MetricKind
  value : Rat
  labels : List String
deriving DecidableEq, Repr

/-- One outbound request to the upstream API during a refresh cycle. -/
inductive UpstreamCall
  | listDevices
  | getState (deviceID : String)
deriving DecidableEq, Repr

/-- The mutable cache owned by YoLinkExporter in exporter.go: last
refresh instant, cached device list, and the device-state map. -/
structure Cache where
  lastScrape : Int
  devices : List Device
  deviceStates : String → Option DeviceStateResponse

/-- time.Second in nanoseconds. -/
def nsPerSecond : Int := 1000000000

/-- The staleness test at the top of Collect in exporter.go:
time.Since(e.lastScrape) greater than interval seconds as a Duration. -/
def needsRefresh (c : Cache) (now intervalSeconds : Int) : Prop :=
  now - c.lastScrape > intervalSeconds * nsPerSecond

instance (c : Cache) (now intervalSeconds : Int) :
    Decidable (needsRefresh c now intervalSeconds) :=
  inferInstanceAs (Decidable (now - c.lastScrape > intervalSeconds * nsPerSecond))

/-- The state-map construction inside refreshData in exporter.go: start
from the fresh empty map and fold over the listed devices, inserting each
successful state fetch under its device id; a failed fetch inserts
nothing. -/
def buildStates (stateResult : Device → Option DeviceStateResponse)
    (devices : List Device) : String → Option DeviceStateResponse :=
  devices.foldl
    (fun m d =>
      match stateResult d with
      | none => m
      | some s => fun k => if k = d.deviceID then some s else m k)
    (fun _ => none)

/-- refreshData from exporter.go. listResult is the outcome of
client.GetDevices (error or filtered device list); stateResult gives the
outcome of client.GetDeviceState per device (none = error). On list error
it returns the error having touched nothing; on success it stores the new
device list, resets the state map to empty, then folds over the listed
devices inserting each successful state fetch under its device id
(buildStates). The second component is the trace of upstream calls made. -/
def refreshData (c : Cache) (listResult : Except String (List Device))
    (stateResult : Device → Option DeviceStateResponse) :
    Except String Cache × List UpstreamCall :=
  match listResult with
  | .error e => (.error e, [.listDevices])
  | .ok devices =>
      (.ok { c with devices := devices,
                    deviceStates := buildStates stateResult devices },
       .listDevices :: devices.map (fun d => .getState d.deviceID))

/-- The per-device emission block in the body of the Collect loop in
exporter.go, for one device whose state lookup succeeded: online gauge
always; last-updated timestamp when reportAt parses (parse failure is
logged and skips only this sample); temperature, humidity and battery only
when the state says online. -/
def deviceBatch (parseRFC3339 : String → Option Int) (d : Device)
    (s : DeviceStateResponse) : List Metric :=
  { kind := .online, value := if s.data.online then (1 : Rat) else 0,
    labels := [d.deviceID, d.name, d.modelName] } ::
  ((match parseRFC3339 s.data.reportAt with
    | some t =>
        [{ kind := .lastUpdated, value := (t : Rat),
           labels := [d.deviceID, d.name, d.modelName] }]
    | none => []) ++
   (if s.data.online then
      [{ kind := .temperature, value := s.data.state.temperature,
         labels := [d.deviceID, d.name, d.modelName] },
       { kind := .humidity, value := s.data.state.humidity,
         labels := [d.deviceID, d.name, d.modelName] },
       { kind := .battery, value := (s.data.state.battery : Rat),
         labels := [d.deviceID, d.name, d.modelName] }]
    else []))

/-- The device-metrics loop of Collect in exporter.go: for each cached
device in order, look its id up in the state map; a missing entry emits
nothing (continue), a present one emits its batch. -/
def deviceMetrics (c : Cache) (parseRFC3339 : String → Option Int) :
    List Metric :=
  c.devices.flatMap (fun d =>
    match c.deviceStates d.deviceID with
    | none => []
    | some s => deviceBatch parseRFC3339 d s)

/-- Inputs of one Collect invocation that come from outside the cache:
the two clock readings (now at the staleness check, nowAfterRefresh at the
lastScrape assignment after a successful refresh), the configured scrape
interval in seconds, the upstream outcomes for this cycle, and the
standard-library RFC3339 parser. -/
structure CollectInput where
  now : Int
  nowAfterRefresh : Int
  intervalSeconds : Int
  listResult : Except String (List Device)
  stateResult : Device → Option DeviceStateResponse
  parseRFC3339 : String → Option Int

/-- Collect from exporter.go (the body under the exporter mutex): check
staleness; if stale run refreshData, and on its failure send a single up=0
sample and return with the cache untouched, on success stamp lastScrape;
then send up=1 followed by the per-device metrics from the cache. Returns
the cache after the call, the samples sent in order, and the trace of
upstream calls. -/
def Collect (c : Cache) (inp : CollectInput) :
    Cache × List Metric × List UpstreamCall :=
  if needsRefresh c inp.now inp.intervalSeconds then
    match refreshData c inp.listResult inp.stateResult with
    | (.error _, calls) =>
        (c, [{ kind := .up, value := 0, labels := [] }], calls)
    | (.ok c2, calls) =>
        let c3 : Cache := { c2 with lastScrape := inp.nowAfterRefresh }
        (c3,
         { kind := .up, value := 1, labels := [] } ::
           deviceMetrics c3 inp.parseRFC3339,
         calls)
  else
    (c,
     { kind := .up, value := 1, labels := [] } ::
       deviceMetrics c inp.parseRFC3339,
     [])

/-- The THSensor filter loop at the end of GetDevices in yolink_client.go,
written as the same append-accumulating fold over the parsed device list. -/
def filterTHSensors (devices : List Device) : List Device :=
  devices.foldl
    (fun acc d =>
      if d.type = "THSensor" ∧ d.modelName = "YS8007-UC" then acc ++ [d]
      else acc)
    []

/-- The post-parse tail of GetDevices in yolink_client.go: reject a
non-success application code, otherwise return the filtered device list. -/
def GetDevices (resp : DeviceListResponse) : Except String (List Device) :=
  if resp.code ≠ "000000" then
    .error ("API returned error code: " ++ resp.code)
  else
    .ok (filterTHSensors resp.devices)

/-- AuthSession held inside YoLinkClient: access token, refresh token,
expiry instant (Int nanoseconds; the zero time of a fresh client is 0). -/
structure Session where
  accessToken : String
  refreshToken : String
  tokenExpiry : Int
deriving DecidableEq, Repr

/-- Which token exchange ensureValidToken dispatches to. -/
inductive GrantKind
  | clientCredentials
  | refreshGrant
deriving DecidableEq, Repr

/-- The dispatch logic of ensureValidToken in yolink_client.go: acquire
when the access token is empty or time.Now().After(tokenExpiry), that is
now strictly past the expiry; when acquiring, use the refresh grant if a
refresh token is held, else client credentials; otherwise do nothing. -/
def tokenGrant (s : Session) (now : Int) : Option GrantKind :=
  if s.accessToken = "" ∨ s.tokenExpiry < now then
    some (if s.refreshToken ≠ "" then .refreshGrant else .clientCredentials)
  else
    none

/-- Outcome of one token-endpoint HTTP exchange, covering every exit of
the Go request code: request construction error, transport error, body
read error, or a delivered response with status and body. -/
inductive HttpOutcome
  | reqError
  | transportError
  | readError
  | response (status : Int) (body : String)

/-- getInitialToken from yolink_client.go as a state transformer: every
error exit happens before any session field is assigned, so it returns the
session unchanged with the error; only after a 200 status and a parsed
body are all three fields assigned together. parseToken is the JSON
unmarshal of the body; now is the time.Now() of the expiry computation. -/
def getInitialToken (s : Session) (now : Int) (outcome : HttpOutcome)
    (parseToken : String → Option TokenResponse) : Session × Option String :=
  match outcome with
  | .reqError => (s, some "failed to create request")
  | .transportError => (s, some "failed to get token")
  | .readError => (s, some "failed to read response")
  | .response status body =>
      if status ≠ 200 then (s, some "token request failed")
      else
        match parseToken body with
        | none => (s, some "failed to parse token response")
        | some tr =>
            ({ accessToken := tr.accessToken,
               refreshToken := tr.refreshToken,
               tokenExpiry := now + (tr.expiresIn - 60) * nsPerSecond },
             none)

/-- refreshAccessToken from yolink_client.go as a state transformer: the
same shape as getInitialToken with the refresh-token grant; every error
exit leaves the session unchanged, success assigns all three fields. -/
def refreshAccessToken (s : Session) (now : Int) (outcome : HttpOutcome)
    (parseToken : String → Option TokenResponse) : Session × Option String :=
  match outcome with
  | .reqError => (s, some "failed to create refresh request")
  | .transportError => (s, some "failed to refresh token")
  | .readError => (s, some "failed to read refresh response")
  | .response status body =>
      if status ≠ 200 then (s, some "token refresh failed")
      else
        match parseToken body with
        | none => (s, some "failed to parse refresh response")
        | some tr =>
            ({ accessToken := tr.accessToken,
               refreshToken := tr.refreshToken,
               tokenExpiry := now + (tr.expiresIn - 60) * nsPerSecond },
             none)

/-- ensureValidToken from yolink_client.go: dispatch per tokenGrant and
run the selected exchange, if any. -/
def ensureValidToken (s : Session) (now nowAtExpiry : Int)
    (outcome : HttpOutcome) (parseToken : String → Option TokenResponse) :
    Session × Option String :=
  if s.accessToken = "" ∨ s.tokenExpiry < now then
    if s.refreshToken ≠ "" then refreshAccessToken s nowAtExpiry outcome parseToken
    else getInitialToken s nowAtExpiry outcome parseToken
  else (s, none)

/-! ### Concrete instances used by witnesses and counterexamples -/

/-- Example sensor device that passes the THSensor filter. -/
def devA : Device :=
  { deviceID := "idA", deviceUDID := "udidA", name := "Sensor A",
    token := "tokA", type := "THSensor", parentDeviceID := "",
    modelName := "YS8007-UC", serviceZone := "z1" }

/-- Second example sensor device that passes the THSensor filter. -/
def devB : Device :=
  { deviceID := "idB", deviceUDID := "udidB", name := "Sensor B",
    token := "tokB", type := "THSensor", parentDeviceID := "",
    modelName := "YS8007-UC", serviceZone := "z1" }

/-- Example hub device that fails the THSensor filter. -/
def hubC : Device :=
  { deviceID := "idC", deviceUDID := "udidC", name := "Hub C",
    token := "tokC", type := "Hub", parentDeviceID := "",
    modelName := "YS1603-UC", serviceZone := "z1" }

/-- Example state response with the device online. -/
def stateOn : DeviceStateResponse :=
  { code := "000000", time := 5,
    data := { online := true,
              state := { battery := 3, humidity := 40, temperature := 21,
                         state := "normal" },
              deviceID := "idA", reportAt := "2024-01-01T00:00:00Z" } }

/-- Example state response with the device offline but carrying sensor
values in its payload. -/
def stateOff : DeviceStateResponse :=
  { code := "000000", time := 6,
    data := { online := false,
              state := { battery := 2, humidity := 55, temperature := 19,
                         state := "normal" },
              deviceID := "idB", reportAt := "2024-01-02T00:00:00Z" } }

/-- A concrete stand-in for the standard-library RFC3339 parser, defined
on the reportAt strings of the example states. -/
def parseEx : String → Option Int := fun s =>
  if s = "2024-01-01T00:00:00Z" then some 1704067200
  else if s = "2024-01-02T00:00:00Z" then some 1704153600
  else none

/-- The empty state map. -/
def noStates : String → Option DeviceStateResponse := fun _ => none

/-! ### Helper lemmas about Collect -/

/-- Unfolding Collect on a stale cache whose device-list call fails. -/
lemma collect_error_eq (c : Cache) (inp : CollectInput) (e : String)
    (hstale : needsRefresh c inp.now inp.intervalSeconds)
    (herr : inp.listResult = .error e) :
    Collect c inp =
      (c, [{ kind := .up, value := 0, labels := [] }],
       [UpstreamCall.listDevices]) := by
  unfold Collect
  rw [if_pos hstale, herr]
  rfl

/-- Unfolding Collect on a fresh cache: no refresh, no upstream calls. -/
lemma collect_fresh_eq (c : Cache) (inp : CollectInput)
    (hfresh : ¬ needsRefresh c inp.now inp.intervalSeconds) :
    Collect c inp =
      (c, { kind := .up, value := 1, labels := [] } ::
            deviceMetrics c inp.parseRFC3339,
       []) := by
  unfold Collect
  rw [if_neg hfresh]

/-- Unfolding Collect on a stale cache whose device-list call succeeds. -/
lemma collect_ok_eq (c : Cache) (inp : CollectInput) (ds : List Device)
    (hstale : needsRefresh c inp.now inp.intervalSeconds)
    (hok : inp.listResult = .ok ds) :
    Collect c inp =
      ({ lastScrape := inp.nowAfterRefresh, devices := ds,
         deviceStates := buildStates inp.stateResult ds },
       { kind := .up, value := 1, labels := [] } ::
         deviceMetrics
           { lastScrape := inp.nowAfterRefresh, devices := ds,
             deviceStates := buildStates inp.stateResult ds }
           inp.parseRFC3339,
       UpstreamCall.listDevices :: ds.map (fun d => .getState d.deviceID)) := by
  unfold Collect
  rw [if_pos hstale, hok]
  rfl

/-- Every sample of a device batch carries exactly the three identity
labels of its device, and is never the liveness family. -/
lemma deviceBatch_mem (parseRFC3339 : String → Option Int) (d : Device)
    (s : DeviceStateResponse) (m : Metric)
    (hm : m ∈ deviceBatch parseRFC3339 d s) :
    m.labels = [d.deviceID, d.name, d.modelName] ∧ m.kind ≠ MetricKind.up := by
  unfold deviceBatch at hm
  rcases List.mem_cons.1 hm with rfl | hm'
  · exact ⟨rfl, by simp⟩
  rcases List.mem_append.1 hm' with h1 | h2
  · cases hp : parseRFC3339 s.data.reportAt with
    | none => simp [hp] at h1
    | some t =>
        rw [hp] at h1
        rcases List.mem_singleton.1 h1 with rfl
        exact ⟨rfl, by simp⟩
  · by_cases ho : s.data.online
    · rw [if_pos ho] at h2
      rcases List.mem_cons.1 h2 with rfl | h2
      · exact ⟨rfl, by simp⟩
      rcases List.mem_cons.1 h2 with rfl | h2
      · exact ⟨rfl, by simp⟩
      rcases List.mem_singleton.1 h2 with rfl
      exact ⟨rfl, by simp⟩
    · rw [if_neg ho] at h2
      simp at h2

/-- Every sample of the device-metrics loop comes from a cached device
whose state lookup succeeded, via its batch. -/
lemma deviceMetrics_mem (c : Cache) (parseRFC3339 : String → Option Int)
    (m : Metric) (hm : m ∈ deviceMetrics c parseRFC3339) :
    ∃ d ∈ c.devices, ∃ s, c.deviceStates d.deviceID = some s ∧
      m ∈ deviceBatch parseRFC3339 d s := by
  unfold deviceMetrics at hm
  rcases List.mem_flatMap.1 hm with ⟨d, hd, hmd⟩
  cases hs : c.deviceStates d.deviceID with
  | none => rw [hs] at hmd; simp at hmd
  | some s => rw [hs] at hmd; exact ⟨d, hd, s, hs, hmd⟩

/-- The device-metrics loop never produces a liveness sample. -/
lemma deviceMetrics_filter_up (c : Cache) (parseRFC3339 : String → Option Int) :
    (deviceMetrics c parseRFC3339).filter
      (fun m => decide (m.kind = MetricKind.up)) = [] := by
  rw [List.filter_eq_nil_iff]
  intro m hm
  rcases deviceMetrics_mem c parseRFC3339 m hm with ⟨d, _, s, _, hmb⟩
  simpa using (deviceBatch_mem parseRFC3339 d s m hmb).2

/-- Lookup characterization of the state-map fold: a key is present after
the fold exactly when it was present before or some folded device carries
it and its fetch succeeded. -/
lemma buildStates_fold_isSome (f : Device → Option DeviceStateResponse) :
    ∀ (ds : List Device) (m0 : String → Option DeviceStateResponse) (k : String),
      ((ds.foldl
          (fun m d =>
            match f d with
            | none => m
            | some s => fun k' => if k' = d.deviceID then some s else m k') m0) k).isSome =
        ((m0 k).isSome ||
          ds.any (fun d => decide (d.deviceID = k) && (f d).isSome)) := by
  intro ds
  induction ds with
  | nil => intro m0 k; simp
  | cons d ds ih =>
      intro m0 k
      rw [List.foldl_cons, ih]
      cases hf : f d with
      | none => simp [hf]
      | some s =>
          by_cases hk : k = d.deviceID
          · subst hk
            simp [hf]
          · have : ¬ (d.deviceID = k) := fun h => hk h.symm
            simp [hf, hk, this]

/-- A key is present in a freshly built state map exactly when some listed
device carries it and its state fetch succeeded. -/
lemma buildStates_isSome (f : Device → Option DeviceStateResponse)
    (ds : List Device) (k : String) :
    ((buildStates f ds) k).isSome =
      ds.any (fun d => decide (d.deviceID = k) && (f d).isSome) := by
  unfold buildStates
  rw [buildStates_fold_isSome]
  simp

/-- The append-accumulating filter loop of GetDevices equals List.filter. -/
lemma filterTHSensors_eq_filter_aux :
    ∀ (ds : List Device) (acc : List Device),
      ds.foldl
        (fun acc d =>
          if d.type = "THSensor" ∧ d.modelName = "YS8007-UC" then acc ++ [d]
          else acc) acc =
      acc ++ ds.filter
        (fun d => decide (d.type = "THSensor") && decide (d.modelName = "YS8007-UC")) := by
  intro ds
  induction ds with
  | nil => intro acc; simp
  | cons d ds ih =>
      intro acc
      rw [List.foldl_cons, ih, List.filter_cons]
      by_cases hd : d.type = "THSensor" ∧ d.modelName = "YS8007-UC"
      · rw [if_pos hd]
        simp [hd.1, hd.2]
      · rw [if_neg hd]
        rcases not_and_or.1 hd with h | h <;> simp [h]

/-- filterTHSensors equals List.filter with the THSensor predicate. -/
lemma filterTHSensors_eq_filter (ds : List Device) :
    filterTHSensors ds =
      ds.filter
        (fun d => decide (d.type = "THSensor") && decide (d.modelName = "YS8007-UC")) := by
  unfold filterTHSensors
  rw [filterTHSensors_eq_filter_aux]
  simp

/-- A device batch contains exactly one online-status sample whose first
label is k, namely when k is the identifier of its device. -/
lemma deviceBatch_online_count (parseRFC3339 : String → Option Int)
    (d : Device) (s : DeviceStateResponse) (k : String) :
    (deviceBatch parseRFC3339 d s).countP
      (fun m => decide (m.kind = MetricKind.online) &&
                decide (m.labels.head? = some k)) =
      if d.deviceID = k then 1 else 0 := by
  cases hp : parseRFC3339 s.data.reportAt <;>
    cases ho : s.data.online <;>
      by_cases hk : d.deviceID = k <;>
        simp [deviceBatch, hp, ho, hk, List.countP_cons, List.countP_append]

/-- Summed over the cached devices, the number of online-status samples
with first label k equals the number of cached devices with identifier k
whose state lookup succeeds. -/
lemma online_count_aux (parseRFC3339 : String → Option Int)
    (st : String → Option DeviceStateResponse) (k : String) :
    ∀ ds : List Device,
      (List.map
        (List.countP
            (fun m => decide (m.kind = MetricKind.online) &&
                      decide (m.labels.head? = some k)) ∘
          fun d =>
            match st d.deviceID with
            | none => []
            | some s => deviceBatch parseRFC3339 d s) ds).sum =
      (ds.filter
        (fun d => decide (d.deviceID = k) && (st d.deviceID).isSome)).length := by
  intro ds
  induction ds with
  | nil => simp
  | cons d ds ih =>
      rw [List.map_cons, List.sum_cons, ih, List.filter_cons]
      cases hs : st d.deviceID with
      | none => simp [Function.comp, hs]
      | some s =>
          have hcount :
              (List.countP
                  (fun m => decide (m.kind = MetricKind.online) &&
                            decide (m.labels.head? = some k)) ∘
                fun d =>
                  match st d.deviceID with
                  | none => []
                  | some s => deviceBatch parseRFC3339 d s) d =
                if d.deviceID = k then 1 else 0 := by
            simp only [Function.comp_apply, hs]
            exact deviceBatch_online_count parseRFC3339 d s k
          rw [hcount]
          by_cases hk : d.deviceID = k
          · simp only [hs, hk, if_pos]
            simp
            omega
          · simp [hs, hk]

/-- countP form of online_count_aux over deviceMetrics. -/
lemma deviceMetrics_online_count (c : Cache)
    (parseRFC3339 : String → Option Int) (k : String) :
    (deviceMetrics c parseRFC3339).countP
      (fun m => decide (m.kind = MetricKind.online) &&
                decide (m.labels.head? = some k)) =
    (c.devices.filter
      (fun d => decide (d.deviceID = k) &&
                (c.deviceStates d.deviceID).isSome)).length := by
  unfold deviceMetrics
  rw [List.countP_flatMap]
  exact online_count_aux parseRFC3339 c.deviceStates k c.devices

/-- When device identifiers are pairwise distinct, the filter counting a
present device by its identifier keeps exactly that device. -/
lemma filter_by_id_length (st : String → Option DeviceStateResponse) :
    ∀ (ds : List Device) (d : Device), (ds.map Device.deviceID).Nodup →
      d ∈ ds → (st d.deviceID).isSome = true →
      (ds.filter
        (fun x => decide (x.deviceID = d.deviceID) &&
                  (st x.deviceID).isSome)).length = 1 := by
  intro ds
  induction ds with
  | nil => intro d _ hd _; simp at hd
  | cons a ds ih =>
      intro d hnodup hd hsome
      rw [List.map_cons, List.nodup_cons] at hnodup
      rcases List.mem_cons.1 hd with hda | hd'
      · subst hda
        rw [List.filter_cons, if_pos (by simp [hsome])]
        have hnil : ds.filter
            (fun x => decide (x.deviceID = d.deviceID) &&
                      (st x.deviceID).isSome) = [] := by
          rw [List.filter_eq_nil_iff]
          intro x hx hcontra
          rw [Bool.and_eq_true, decide_eq_true_eq] at hcontra
          exact hnodup.1 (hcontra.1 ▸ List.mem_map_of_mem Device.deviceID hx)
        rw [hnil]
        simp
      · have hne : a.deviceID ≠ d.deviceID := by
          intro h
          exact hnodup.1 (h ▸ List.mem_map_of_mem Device.deviceID hd')
        rw [List.filter_cons, if_neg (by simp [hne])]
        exact ih d hnodup.2 hd' hsome

/-! ### Claim theorems -/

/-- Claim C1: when the cache is stale and the device-list call of the
refresh fails, Collect sends exactly one sample, the liveness metric with
value 0, sends no device metrics, and returns with the whole cache record
(device list, state mapping, last-refresh instant) unchanged, so the next
invocation sees the same stale cache and retries the refresh; the only
upstream call of the cycle is the failed device-list request. -/
theorem collect_list_failure_emits_up_zero (c : Cache) (inp : CollectInput)
    (e : String) (hstale : needsRefresh c inp.now inp.intervalSeconds)
    (herr : inp.listResult = .error e) :
    Collect c inp =
      (c, [{ kind := .up, value := 0, labels := [] }],
       [UpstreamCall.listDevices]) :=
  collect_error_eq c inp e hstale herr

/-- Stale cache with one device and a failing device-list call. -/
def cacheEx1 : Cache :=
  { lastScrape := 0, devices := [devA],
    deviceStates := fun k => if k = "idA" then some stateOn else none }

/-- Input for the C1 witness: stale by 20 seconds against a 10 second
interval, device-list call fails. -/
def inputEx1 : CollectInput :=
  { now := 20000000000, nowAfterRefresh := 21000000000, intervalSeconds := 10,
    listResult := .error "boom", stateResult := fun _ => none,
    parseRFC3339 := parseEx }

/-- Claim C1 witness: the stale cache with a failing list call yields the
single liveness-0 sample and the untouched cache. -/
theorem collect_list_failure_emits_up_zero_witness :
    needsRefresh cacheEx1 inputEx1.now inputEx1.intervalSeconds ∧
    Collect cacheEx1 inputEx1 =
      (cacheEx1, [{ kind := .up, value := 0, labels := [] }],
       [UpstreamCall.listDevices]) :=
  ⟨by decide, collect_list_failure_emits_up_zero cacheEx1 inputEx1 "boom"
      (by decide) rfl⟩

/-- Claim C2: a refresh whose device-list call succeeds never fails; it
replaces the cached device list wholesale with exactly the returned list,
leaves the last-refresh instant alone (Collect stamps it separately), and
rebuilds the state mapping from empty so that a key is present in it
exactly when some listed device carries that identifier and its state
fetch succeeded; a per-device fetch failure only leaves that device out. -/
theorem refreshData_wholesale_replace (c : Cache) (ds : List Device)
    (f : Device → Option DeviceStateResponse) :
    (refreshData c (.ok ds) f).1 =
      .ok { lastScrape := c.lastScrape, devices := ds,
            deviceStates := buildStates f ds } ∧
    ∀ k, ((buildStates f ds) k).isSome =
      ds.any (fun d => decide (d.deviceID = k) && (f d).isSome) := by
  constructor
  · rfl
  · intro k
    exact buildStates_isSome f ds k

/-- Claim C3: when device identifiers are pairwise distinct (the data
model declares them unique), the device metrics of a collection are
exactly one emission batch per cached device having a state entry: every
emitted sample belongs to a cached device with a state entry and carries
its three identity labels; a device with a state entry owns exactly one
batch (counted by its online-status sample); and a cached device without a
state entry has no sample at all. -/
theorem collect_emission_batches (c : Cache)
    (parseRFC3339 : String → Option Int)
    (hnodup : (c.devices.map Device.deviceID).Nodup) :
    (∀ m ∈ deviceMetrics c parseRFC3339,
       ∃ d ∈ c.devices, (c.deviceStates d.deviceID).isSome = true ∧
         m.labels = [d.deviceID, d.name, d.modelName]) ∧
    (∀ d ∈ c.devices, (c.deviceStates d.deviceID).isSome = true →
       (deviceMetrics c parseRFC3339).countP
         (fun m => decide (m.kind = MetricKind.online) &&
                   decide (m.labels.head? = some d.deviceID)) = 1) ∧
    (∀ d ∈ c.devices, c.deviceStates d.deviceID = none →
       ∀ m ∈ deviceMetrics c parseRFC3339,
         m.labels.head? ≠ some d.deviceID) := by
  refine ⟨?_, ?_, ?_⟩
  · intro m hm
    rcases deviceMetrics_mem c parseRFC3339 m hm with ⟨d, hd, s, hs, hmb⟩
    exact ⟨d, hd, by rw [hs]; rfl,
      (deviceBatch_mem parseRFC3339 d s m hmb).1⟩
  · intro d hd hsome
    rw [deviceMetrics_online_count]
    exact filter_by_id_length c.deviceStates c.devices d hnodup hd hsome
  · intro d hd hnone m hm heq
    rcases deviceMetrics_mem c parseRFC3339 m hm with ⟨d2, hd2, s, hs, hmb⟩
    have hlab := (deviceBatch_mem parseRFC3339 d2 s m hmb).1
    rw [hlab] at heq
    have hid : d2.deviceID = d.deviceID := by
      simpa using heq
    have : d2 = d := List.inj_on_of_nodup_map hnodup hd2 hd hid
    subst this
    rw [hnone] at hs
    exact Option.noConfusion hs

/-- Cache for the C3 witness: devices A and B cached, state present for A
only. -/
def cacheEx3 : Cache :=
  { lastScrape := 0, devices := [devA, devB],
    deviceStates := fun k => if k = "idA" then some stateOn else none }

/-- Claim C3 witness: with devices A and B cached and a state entry for A
only, the emission has one batch for A and nothing for B. -/
theorem collect_emission_batches_witness :
    (([devA, devB].map Device.deviceID).Nodup ∧
     cacheEx3.devices = [devA, devB]) ∧
    ((∀ m ∈ deviceMetrics cacheEx3 parseEx,
       ∃ d ∈ cacheEx3.devices,
         (cacheEx3.deviceStates d.deviceID).isSome = true ∧
         m.labels = [d.deviceID, d.name, d.modelName]) ∧
    (∀ d ∈ cacheEx3.devices,
       (cacheEx3.deviceStates d.deviceID).isSome = true →
       (deviceMetrics cacheEx3 parseEx).countP
         (fun m => decide (m.kind = MetricKind.online) &&
                   decide (m.labels.head? = some d.deviceID)) = 1) ∧
    (∀ d ∈ cacheEx3.devices, cacheEx3.deviceStates d.deviceID = none →
       ∀ m ∈ deviceMetrics cacheEx3 parseEx,
         m.labels.head? ≠ some d.deviceID)) :=
  ⟨⟨by decide, rfl⟩, collect_emission_batches cacheEx3 parseEx (by decide)⟩

/-- Claim C4: in the emission batch of any device, the online-status gauge
is always present (value 0 when offline, 1 when online); the last-report
timestamp is present whenever reportAt parses and absent when it does not,
with a parse failure suppressing nothing else; and the temperature,
humidity and battery samples are present exactly when the state says
online, never for an offline device regardless of its payload values. -/
theorem collect_online_gating (parseRFC3339 : String → Option Int)
    (d : Device) (s : DeviceStateResponse) :
    ({ kind := .online, value := if s.data.online then (1 : Rat) else 0,
       labels := [d.deviceID, d.name, d.modelName] } : Metric) ∈
      deviceBatch parseRFC3339 d s ∧
    (∀ t, parseRFC3339 s.data.reportAt = some t →
       ({ kind := .lastUpdated, value := (t : Rat),
          labels := [d.deviceID, d.name, d.modelName] } : Metric) ∈
         deviceBatch parseRFC3339 d s) ∧
    (parseRFC3339 s.data.reportAt = none →
       ∀ m ∈ deviceBatch parseRFC3339 d s, m.kind ≠ MetricKind.lastUpdated) ∧
    (s.data.online = false →
       ∀ m ∈ deviceBatch parseRFC3339 d s,
         m.kind ≠ MetricKind.temperature ∧ m.kind ≠ MetricKind.humidity ∧
         m.kind ≠ MetricKind.battery) ∧
    (s.data.online = true →
       ({ kind := .temperature, value := s.data.state.temperature,
          labels := [d.deviceID, d.name, d.modelName] } : Metric) ∈
         deviceBatch parseRFC3339 d s ∧
       ({ kind := .humidity, value := s.data.state.humidity,
          labels := [d.deviceID, d.name, d.modelName] } : Metric) ∈
         deviceBatch parseRFC3339 d s ∧
       ({ kind := .battery, value := (s.data.state.battery : Rat),
          labels := [d.deviceID, d.name, d.modelName] } : Metric) ∈
         deviceBatch parseRFC3339 d s) := by
  refine ⟨?_, ?_, ?_, ?_, ?_⟩
  · unfold deviceBatch
    exact List.mem_cons_self _ _
  · intro t ht
    simp [deviceBatch, ht]
  · intro hp m hm
    cases ho : s.data.online
    · simp [deviceBatch, hp, ho] at hm
      subst hm
      simp
    · simp [deviceBatch, hp, ho] at hm
      rcases hm with rfl | rfl | rfl | rfl <;> simp
  · intro ho m hm
    cases hp : parseRFC3339 s.data.reportAt
    · simp [deviceBatch, hp, ho] at hm
      subst hm
      simp
    · simp [deviceBatch, hp, ho] at hm
      rcases hm with rfl | rfl <;> simp
  · intro ho
    refine ⟨?_, ?_, ?_⟩ <;> simp [deviceBatch, ho]

/-- Claim C5: every Collect invocation sends exactly one liveness sample:
the only up-family sample of the emission has value 1 when no refresh was
needed or the refresh succeeded, and value 0 when the attempted refresh
failed; device batches never contribute an up sample. -/
theorem collect_liveness_exactly_one (c : Cache) (inp : CollectInput) :
    ((¬ needsRefresh c inp.now inp.intervalSeconds ∨
        ∃ ds, inp.listResult = .ok ds) →
       (Collect c inp).2.1.filter (fun m => decide (m.kind = MetricKind.up)) =
         [{ kind := .up, value := 1, labels := [] }]) ∧
    (∀ e, needsRefresh c inp.now inp.intervalSeconds →
       inp.listResult = .error e →
       (Collect c inp).2.1.filter (fun m => decide (m.kind = MetricKind.up)) =
         [{ kind := .up, value := 0, labels := [] }]) := by
  constructor
  · intro h
    by_cases hstale : needsRefresh c inp.now inp.intervalSeconds
    · rcases h with h | ⟨ds, hok⟩
      · exact absurd hstale h
      · rw [collect_ok_eq c inp ds hstale hok]
        simp [List.filter_cons, deviceMetrics_filter_up]
    · rw [collect_fresh_eq c inp hstale]
      simp [List.filter_cons, deviceMetrics_filter_up]
  · intro e hstale herr
    rw [collect_error_eq c inp e hstale herr]
    simp

/-- Claim C6 (amended): Collect attempts a refresh exactly when the cache
age strictly exceeds the configured interval: the upstream trace of the
invocation is nonempty precisely under that strict inequality, so a cache
age exactly equal to the interval attempts nothing. -/
theorem collect_refresh_iff_strictly_stale (c : Cache) (inp : CollectInput) :
    (Collect c inp).2.2 ≠ [] ↔
      inp.now - c.lastScrape > inp.intervalSeconds * nsPerSecond := by
  by_cases hstale : needsRefresh c inp.now inp.intervalSeconds
  · cases hl : inp.listResult with
    | error e =>
        rw [collect_error_eq c inp e hstale hl]
        simpa [needsRefresh] using hstale
    | ok ds =>
        rw [collect_ok_eq c inp ds hstale hl]
        simpa [needsRefresh] using hstale
  · rw [collect_fresh_eq c inp hstale]
    simpa [needsRefresh] using hstale

/-- Empty cache whose age at the C6 boundary input is exactly the
configured interval. -/
def cacheEx6 : Cache :=
  { lastScrape := 0, devices := [], deviceStates := noStates }

/-- Input for the C6 counterexample: cache age exactly 10 seconds against
a 10 second interval, and a device-list call that would fail. -/
def inputEx6 : CollectInput :=
  { now := 10000000000, nowAfterRefresh := 10000000000, intervalSeconds := 10,
    listResult := .error "boom", stateResult := fun _ => none,
    parseRFC3339 := parseEx }

/-- Claim C6 counterexample: at cache age exactly equal to the configured
interval, Collect makes no upstream call and serves from the cache with
liveness 1, even though the device-list call would have failed; so age
equal to the interval does not trigger a refresh attempt. -/
theorem collect_boundary_no_refresh :
    inputEx6.now - cacheEx6.lastScrape =
      inputEx6.intervalSeconds * nsPerSecond ∧
    Collect cacheEx6 inputEx6 =
      (cacheEx6, [{ kind := .up, value := 1, labels := [] }], []) := by
  constructor
  · decide
  · rfl

/-- Claim C7 (amended): before an authenticated call the session check
acquires exactly when no access token is held or the instant is strictly
after the stored expiry (an instant equal to the expiry triggers nothing);
when acquiring it uses the refresh grant if a refresh token is held and
client credentials otherwise; and a successful exchange stores expiry =
now plus the declared lifetime minus the 60 second safety buffer. -/
theorem ensureValidToken_policy (s : Session) (now now2 : Int)
    (outcome : HttpOutcome) (parseToken : String → Option TokenResponse) :
    ((tokenGrant s now).isSome =
       (decide (s.accessToken = "") || decide (s.tokenExpiry < now))) ∧
    (tokenGrant s now = some .refreshGrant ↔
       (s.accessToken = "" ∨ s.tokenExpiry < now) ∧ s.refreshToken ≠ "") ∧
    (tokenGrant s now = some .clientCredentials ↔
       (s.accessToken = "" ∨ s.tokenExpiry < now) ∧ s.refreshToken = "") ∧
    (ensureValidToken s now now2 outcome parseToken =
       match tokenGrant s now with
       | none => (s, none)
       | some .refreshGrant => refreshAccessToken s now2 outcome parseToken
       | some .clientCredentials => getInitialToken s now2 outcome parseToken) ∧
    (∀ body tr, parseToken body = some tr →
       (getInitialToken s now2 (.response 200 body) parseToken).1.tokenExpiry =
         now2 + (tr.expiresIn - 60) * nsPerSecond ∧
       (refreshAccessToken s now2 (.response 200 body) parseToken).1.tokenExpiry =
         now2 + (tr.expiresIn - 60) * nsPerSecond) := by
  refine ⟨?_, ?_, ?_, ?_, ?_⟩
  · unfold tokenGrant
    by_cases h : s.accessToken = "" ∨ s.tokenExpiry < now
    · rw [if_pos h]
      rcases h with h | h <;> simp [h]
    · rw [if_neg h]
      push_neg at h
      simp [h.1, h.2]
  · unfold tokenGrant
    by_cases h : s.accessToken = "" ∨ s.tokenExpiry < now
    · rw [if_pos h]
      by_cases hr : s.refreshToken = "" <;> simp [hr, h]
    · rw [if_neg h]
      simp [h]
  · unfold tokenGrant
    by_cases h : s.accessToken = "" ∨ s.tokenExpiry < now
    · rw [if_pos h]
      by_cases hr : s.refreshToken = "" <;> simp [hr, h]
    · rw [if_neg h]
      simp [h]
  · unfold ensureValidToken tokenGrant
    by_cases h : s.accessToken = "" ∨ s.tokenExpiry < now
    · by_cases hr : s.refreshToken = "" <;> simp [h, hr]
    · simp [h]
  · intro body tr hp
    exact ⟨by simp [getInitialToken, hp], by simp [refreshAccessToken, hp]⟩

/-- Session for the C7 counterexample: an access token held, expiry 100. -/
def sessionEx : Session :=
  { accessToken := "tok", refreshToken := "r", tokenExpiry := 100 }

/-- Claim C7 counterexample: with an access token held and the current
instant exactly equal to the stored expiry, the session check acquires
nothing and performs no exchange, though the claim requires acquisition
when the instant is at the expiry: the code tests time.Now().After, which
is strict. -/
theorem ensureValidToken_boundary_no_acquire :
    sessionEx.tokenExpiry = 100 ∧ sessionEx.accessToken ≠ "" ∧
    tokenGrant sessionEx 100 = none ∧
    ensureValidToken sessionEx 100 100 .transportError (fun _ => none) =
      (sessionEx, none) := by
  exact ⟨rfl, by decide, by decide, rfl⟩

/-- Claim C8 (amended): for two Collect invocations separated by less than
the configured interval, with monotone clock readings, provided the first
invocation does not suffer a failed refresh (either it needs none or its
device-list call succeeds), at most one of the two performs upstream
calls; in particular after a successful refresh by the first, the second
performs none. A failed first refresh instead leaves the cache stale so
the second retries. -/
theorem collect_pair_at_most_one_refresh (c : Cache) (i1 i2 : CollectInput)
    (hmono : i1.now ≤ i1.nowAfterRefresh)
    (hsep : i2.now - i1.now < i2.intervalSeconds * nsPerSecond)
    (hfirst : needsRefresh c i1.now i1.intervalSeconds →
      ∃ ds, i1.listResult = .ok ds) :
    (Collect c i1).2.2 = [] ∨ (Collect (Collect c i1).1 i2).2.2 = [] := by
  by_cases h1 : needsRefresh c i1.now i1.intervalSeconds
  · rcases hfirst h1 with ⟨ds, hok⟩
    right
    rw [collect_ok_eq c i1 ds h1 hok]
    have hfresh : ¬ needsRefresh
        { lastScrape := i1.nowAfterRefresh, devices := ds,
          deviceStates := buildStates i1.stateResult ds }
        i2.now i2.intervalSeconds := by
      unfold needsRefresh
      intro hgt
      dsimp only at hgt
      linarith
    rw [collect_fresh_eq _ i2 hfresh]
  · left
    rw [collect_fresh_eq c i1 h1]

/-- Shared cache for the C8 witness and counterexample: empty cache last
refreshed at instant 0. -/
def cacheEx8 : Cache :=
  { lastScrape := 0, devices := [], deviceStates := noStates }

/-- First input of the C8 witness: stale at 20 seconds, successful empty
device list, lastScrape stamped at 21 seconds. -/
def inputEx8a : CollectInput :=
  { now := 20000000000, nowAfterRefresh := 21000000000, intervalSeconds := 10,
    listResult := .ok [], stateResult := fun _ => none,
    parseRFC3339 := parseEx }

/-- Second input of the C8 witness: 5 seconds after the first. -/
def inputEx8b : CollectInput :=
  { now := 25000000000, nowAfterRefresh := 26000000000, intervalSeconds := 10,
    listResult := .ok [], stateResult := fun _ => none,
    parseRFC3339 := parseEx }

/-- Claim C8 witness: after the first invocation refreshes successfully,
the second invocation 5 seconds later performs no upstream calls. -/
theorem collect_pair_at_most_one_refresh_witness :
    inputEx8a.now ≤ inputEx8a.nowAfterRefresh ∧
    inputEx8b.now - inputEx8a.now < inputEx8b.intervalSeconds * nsPerSecond ∧
    ((Collect cacheEx8 inputEx8a).2.2 = [] ∨
     (Collect (Collect cacheEx8 inputEx8a).1 inputEx8b).2.2 = []) :=
  ⟨by decide, by decide,
   collect_pair_at_most_one_refresh cacheEx8 inputEx8a inputEx8b
     (by decide) (by decide) (fun _ => ⟨[], rfl⟩)⟩

/-- First input of the C8 counterexample: fresh at 9 seconds of age. -/
def inputEx8c : CollectInput :=
  { now := 9000000000, nowAfterRefresh := 9000000000, intervalSeconds := 10,
    listResult := .ok [], stateResult := fun _ => none,
    parseRFC3339 := parseEx }

/-- Second input of the C8 counterexample: 1.5 seconds after the first,
crossing the staleness boundary of the unrefreshed cache. -/
def inputEx8d : CollectInput :=
  { now := 10500000000, nowAfterRefresh := 10600000000, intervalSeconds := 10,
    listResult := .ok [], stateResult := fun _ => none,
    parseRFC3339 := parseEx }

/-- First input of the failing-refresh C8 scenario: stale at 20 seconds,
device-list call fails. -/
def inputEx8e : CollectInput :=
  { now := 20000000000, nowAfterRefresh := 20000000000, intervalSeconds := 10,
    listResult := .error "boom", stateResult := fun _ => none,
    parseRFC3339 := parseEx }

/-- Second input of the failing-refresh C8 scenario: one second after the
first, device-list call fails again. -/
def inputEx8f : CollectInput :=
  { now := 21000000000, nowAfterRefresh := 21000000000, intervalSeconds := 10,
    listResult := .error "boom", stateResult := fun _ => none,
    parseRFC3339 := parseEx }

/-- Claim C8 counterexample, two scenarios against a 10 second interval.
First: invocations 1.5 seconds apart where the first is fresh and performs
no upstream call, yet the second crosses the staleness boundary and
performs the device-list call, so the second invocation of a pair closer
than the interval can perform upstream calls. Second: invocations 1 second
apart where the first attempts a refresh whose device-list call fails, so
the staleness clock is not reset and the second attempts the device-list
call again: two upstream refresh sequences across one pair. -/
theorem collect_pair_second_call_refreshes :
    (inputEx8d.now - inputEx8c.now < inputEx8d.intervalSeconds * nsPerSecond ∧
     (Collect cacheEx8 inputEx8c).2.2 = [] ∧
     (Collect (Collect cacheEx8 inputEx8c).1 inputEx8d).2.2 =
       [UpstreamCall.listDevices]) ∧
    (inputEx8f.now - inputEx8e.now < inputEx8f.intervalSeconds * nsPerSecond ∧
     (Collect cacheEx8 inputEx8e).2.2 = [UpstreamCall.listDevices] ∧
     (Collect (Collect cacheEx8 inputEx8e).1 inputEx8f).2.2 =
       [UpstreamCall.listDevices]) := by
  exact ⟨⟨by decide, rfl, rfl⟩, ⟨by decide, rfl, rfl⟩⟩

/-- Claim C9: on a successful device-list response, GetDevices returns
exactly the devices whose type is THSensor and whose model is YS8007-UC,
in their original order: the result equals the filter of the response
list (hence is an order-preserving sublist), contains only matching
devices, and drops no matching device. -/
theorem GetDevices_returns_filtered (resp : DeviceListResponse)
    (out : List Device) (h : GetDevices resp = .ok out) :
    out = resp.devices.filter
        (fun d => decide (d.type = "THSensor") &&
                  decide (d.modelName = "YS8007-UC")) ∧
    out.Sublist resp.devices ∧
    (∀ d ∈ out, d.type = "THSensor" ∧ d.modelName = "YS8007-UC") ∧
    (∀ d ∈ resp.devices, d.type = "THSensor" → d.modelName = "YS8007-UC" →
       d ∈ out) := by
  have hout : out = filterTHSensors resp.devices := by
    unfold GetDevices at h
    by_cases hc : resp.code ≠ "000000"
    · rw [if_pos hc] at h
      exact Except.noConfusion h
    · rw [if_neg hc] at h
      exact (Except.ok.inj h).symm
  subst hout
  rw [filterTHSensors_eq_filter]
  refine ⟨rfl, List.filter_sublist _, ?_, ?_⟩
  · intro d hd
    rcases List.mem_filter.1 hd with ⟨_, hpd⟩
    rw [Bool.and_eq_true, decide_eq_true_eq, decide_eq_true_eq] at hpd
    exact hpd
  · intro d hd ht hm
    exact List.mem_filter.2 ⟨hd, by simp [ht, hm]⟩

/-- Device-list response for the C9 witness: two matching sensors around
a non-matching hub. -/
def respEx : DeviceListResponse :=
  { code := "000000", time := 0, devices := [devA, hubC, devB] }

/-- Claim C9 witness: the response with sensors A, B and hub C filters to
exactly A then B, in order. -/
theorem GetDevices_returns_filtered_witness :
    GetDevices respEx = .ok [devA, devB] ∧
    ([devA, devB] = respEx.devices.filter
        (fun d => decide (d.type = "THSensor") &&
                  decide (d.modelName = "YS8007-UC")) ∧
     List.Sublist [devA, devB] respEx.devices ∧
     (∀ d ∈ [devA, devB], d.type = "THSensor" ∧ d.modelName = "YS8007-UC") ∧
     (∀ d ∈ respEx.devices, d.type = "THSensor" → d.modelName = "YS8007-UC" →
        d ∈ [devA, devB])) :=
  ⟨rfl, GetDevices_returns_filtered respEx [devA, devB] rfl⟩

/-- Claim C10: every failing exit of the token acquisition and of the
token refresh (request construction, transport, body read, non-200
status, malformed body) returns the session exactly as before the
attempt, and a non-failing exit happens only on a 200 response whose body
parses, at which point the three session fields are assigned together
from the parsed body. -/
theorem token_exchange_failure_preserves_session (s : Session) (now : Int)
    (outcome : HttpOutcome) (parseToken : String → Option TokenResponse) :
    ((getInitialToken s now outcome parseToken).2.isSome = true →
       (getInitialToken s now outcome parseToken).1 = s) ∧
    ((refreshAccessToken s now outcome parseToken).2.isSome = true →
       (refreshAccessToken s now outcome parseToken).1 = s) ∧
    ((getInitialToken s now outcome parseToken).2 = none →
       ∃ body tr, outcome = .response 200 body ∧
         parseToken body = some tr ∧
         (getInitialToken s now outcome parseToken).1 =
           { accessToken := tr.accessToken, refreshToken := tr.refreshToken,
             tokenExpiry := now + (tr.expiresIn - 60) * nsPerSecond }) ∧
    ((refreshAccessToken s now outcome parseToken).2 = none →
       ∃ body tr, outcome = .response 200 body ∧
         parseToken body = some tr ∧
         (refreshAccessToken s now outcome parseToken).1 =
           { accessToken := tr.accessToken, refreshToken := tr.refreshToken,
             tokenExpiry := now + (tr.expiresIn - 60) * nsPerSecond }) := by
  cases outcome with
  | reqError =>
      exact ⟨fun _ => rfl, fun _ => rfl,
        by simp [getInitialToken], by simp [refreshAccessToken]⟩
  | transportError =>
      exact ⟨fun _ => rfl, fun _ => rfl,
        by simp [getInitialToken], by simp [refreshAccessToken]⟩
  | readError =>
      exact ⟨fun _ => rfl, fun _ => rfl,
        by simp [getInitialToken], by simp [refreshAccessToken]⟩
  | response status body =>
      by_cases hst : status ≠ 200
      · refine ⟨?_, ?_, ?_, ?_⟩ <;>
          simp [getInitialToken, refreshAccessToken, hst]
      · have h200 : status = 200 := not_not.mp hst
        subst h200
        cases hp : parseToken body with
        | none =>
            refine ⟨?_, ?_, ?_, ?_⟩ <;>
              simp [getInitialToken, refreshAccessToken, hp]
        | some tr =>
            refine ⟨?_, ?_, ?_, ?_⟩
            · intro hcontra
              simp [getInitialToken, hp] at hcontra
            · intro hcontra
              simp [refreshAccessToken, hp] at hcontra
            · intro _
              exact ⟨body, tr, rfl, hp, by simp [getInitialToken, hp]⟩
            · intro _
              exact ⟨body, tr, rfl, hp, by simp [refreshAccessToken, hp]⟩
